import Mathlib

/-!
Shallow embedding of the `ExperimentTemplate` class from `src/src/experiment.py`
(repository GenericRA).  One experiment instance owns an `ExpState`; the output
directory is modelled by `World`, a list of on-disk checkpoint files.  Wall-clock
readings (`datetime.now()`) are passed in as explicit `Nat` time parameters, and a
possible I/O failure while writing a checkpoint is passed in as an explicit
`writeFails : Bool` (Python: an exception raised by `open`/`pickle.dump`).
Subclass hooks may raise; this is modelled by `Except String`.  The model covers a
single experiment name per world, so the glob pattern
`{experiment_name}_progress_*.pkl` reduces to matching the `FileName.progress`
constructor; `{experiment_name}_final.pkl` is `FileName.finalFile`.
-/

/-- One entry of `self.results` (experiment.py lines 166-173 success, 185-191 error).
Success records carry the processed input and the output; error records carry the
message.  The `status` value is the literal Python string. -/
structure ResultRecord where
  iteration : Nat
  input : Nat
  processedInput : Option Nat
  output : Option Nat
  error : Option String
  timestamp : Nat
  status : String
deriving DecidableEq

/-- The `self.metadata` dictionary.  Keys that are not present initially
(`last_save`, `end_time`, ...) are `Option` fields defaulting to `none`
(experiment.py lines 49-53, 213-219, 309-312, 319-323). -/
structure Metadata where
  experimentName : String
  startTime : Nat
  status : String
  lastSave : Option Nat := none
  endTime : Option Nat := none
  currentIteration : Option Nat := none
  totalResults : Option Nat := none
  totalIterations : Option Nat := none
deriving DecidableEq

/-- Subclass-supplied hooks (the overridable methods of the template).  Each may
raise an exception, modelled by `Except.error` with the exception message; the
validators return a `Bool` when they do not raise. -/
structure Hooks where
  validate_input : Nat → Except String Bool
  process_input : Nat → Except String Nat
  generate_output : Nat → Except String Nat
  validate_output : Nat → Except String Bool

/-- In-memory state of one `ExperimentTemplate` instance (experiment.py lines 35-53). -/
structure ExpState where
  experimentName : String
  saveInterval : Nat
  autoSave : Bool
  currentIteration : Nat
  results : List ResultRecord
  metadata : Metadata
deriving DecidableEq

/-- Names of files in the output directory.  `progress ts` stands for
`{experiment_name}_progress_{ts}.pkl` and `finalFile` for
`{experiment_name}_final.pkl`; `other` covers files matching neither pattern. -/
inductive FileName where
  | progress (ts : Nat)
  | finalFile
  | other (id : Nat)
deriving DecidableEq

/-- The dictionary pickled by `save` (experiment.py lines 222-227). -/
structure SaveData where
  metadata : Metadata
  results : List ResultRecord
  currentIteration : Nat
  experimentName : String
deriving DecidableEq

/-- One file on disk: its name, filesystem modification time, pickled payload, and
whether `pickle.load` on it raises (a corrupt or truncated checkpoint). -/
structure DiskFile where
  name : FileName
  mtime : Nat
  data : SaveData
  corrupt : Bool
deriving DecidableEq

/-- The output directory. -/
structure World where
  files : List DiskFile
deriving DecidableEq

/-- Writing a file: an existing file of the same name is overwritten
(last-write-wins), the new file carries the current time as mtime. -/
def writeFile (w : World) (name : FileName) (mtime : Nat) (d : SaveData) : World :=
  ⟨⟨name, mtime, d, false⟩ :: w.files.filter (fun f => decide (f.name ≠ name))⟩

/-- Fresh constructor state before `_load_progress` runs (experiment.py lines 44-53). -/
def initState (expName : String) (saveInterval : Nat) (autoSave : Bool) (t : Nat) : ExpState :=
  { experimentName := expName
    saveInterval := saveInterval
    autoSave := autoSave
    currentIteration := 0
    results := []
    metadata := { experimentName := expName, startTime := t, status := "initialized" } }

/-- The success entry built at experiment.py lines 166-173. -/
def okRecord (iter x p o t : Nat) : ResultRecord :=
  ⟨iter, x, some p, some o, none, t, "success"⟩

/-- The error entry built at experiment.py lines 185-191. -/
def errRecord (iter x : Nat) (e : String) (t : Nat) : ResultRecord :=
  ⟨iter, x, none, none, some e, t, "error"⟩

/-- The adjacent pair `self.results.append(r); self.current_iteration += 1`
executed on both the success path (lines 175-176) and the error path
(lines 192-193) of `run_single`. -/
def appendResult (st : ExpState) (r : ResultRecord) : ExpState :=
  { st with results := st.results ++ [r], currentIteration := st.currentIteration + 1 }

/-- The hook pipeline of `run_single`'s try block before any mutation
(experiment.py lines 152-163): validate input, process, generate output,
validate output; the first failure wins and carries `str(e)`. -/
def runStep (h : Hooks) (input : Nat) : Except String (Nat × Nat) :=
  match h.validate_input input with
  | Except.error e => Except.error e
  | Except.ok vi =>
    if vi = false then Except.error "Input validation failed"
    else
      match h.process_input input with
      | Except.error e => Except.error e
      | Except.ok p =>
        match h.generate_output p with
        | Except.error e => Except.error e
        | Except.ok o =>
          match h.validate_output o with
          | Except.error e => Except.error e
          | Except.ok vo =>
            if vo = false then Except.error "Output validation failed"
            else Except.ok (p, o)

/-- Message of a filesystem exception raised while writing a checkpoint. -/
def persistMsg : String := "persistence error"

/-- Message of Python's ZeroDivisionError, raised by
`current_iteration % save_interval` when `save_interval == 0`. -/
def zeroDivMsg : String := "integer division or modulo by zero"

/-- The `metadata.update` performed by `save` before anything is written
(experiment.py lines 213-219): it runs even when the subsequent write fails. -/
def saveMeta (st : ExpState) (t : Nat) : Metadata :=
  { st.metadata with
      lastSave := some t
      currentIteration := some st.currentIteration
      totalResults := some st.results.length
      status := "running" }

/-- `save` (experiment.py lines 197-246).  The default filename is
`{experiment_name}_progress_{timestamp}.pkl` with the current time; metadata is
updated first, then the pickle is written.  When the write raises
(`writeFails = true`) the exception propagates (`Except.error`) after the
metadata mutation, and the filesystem is unchanged.  The JSON sibling file
(summary only) is not modelled separately. -/
def save (st : ExpState) (w : World) (t : Nat) (filename : Option FileName)
    (writeFails : Bool) : ExpState × Except String (World × FileName) :=
  let name := filename.getD (FileName.progress t)
  let st' : ExpState := { st with metadata := saveMeta st t }
  if writeFails then
    (st', Except.error persistMsg)
  else
    (st', Except.ok
      (writeFile w name t ⟨saveMeta st t, st.results, st.currentIteration, st.experimentName⟩,
        name))

/-- `run_single` (experiment.py lines 140-194).  The whole body, including the
auto-save at lines 178-180, is inside one `try`; `except Exception` (line 184)
appends an error record built from the *current* value of `current_iteration`
and increments again.  Consequently an exception raised by the auto-save
(a write failure, or ZeroDivisionError when `save_interval == 0`) is caught
here and produces a second appended record. -/
def run_single (h : Hooks) (st : ExpState) (w : World) (t : Nat) (writeFails : Bool)
    (input : Nat) : ExpState × World × ResultRecord :=
  match runStep h input with
  | Except.error e =>
      let r := errRecord st.currentIteration input e t
      (appendResult st r, w, r)
  | Except.ok (p, o) =>
      let r := okRecord st.currentIteration input p o t
      let st1 := appendResult st r
      if st1.autoSave = true then
        if st1.saveInterval = 0 then
          let r2 := errRecord st1.currentIteration input zeroDivMsg t
          (appendResult st1 r2, w, r2)
        else if st1.currentIteration % st1.saveInterval = 0 then
          match save st1 w t none writeFails with
          | (st2, Except.ok (w2, _)) => (st2, w2, r)
          | (st2, Except.error e) =>
              let r2 := errRecord st2.currentIteration input e t
              (appendResult st2 r2, w, r2)
        else (st1, w, r)
      else (st1, w, r)

/-- A sequence of `run_single` calls: each list entry is (input, time, whether the
checkpoint write would fail at that moment). -/
def runMany (h : Hooks) : List (Nat × Nat × Bool) → ExpState × World → ExpState × World
  | [], sw => sw
  | (x, t, fl) :: rest, (st, w) =>
      runMany h rest ((run_single h st w t fl x).1, (run_single h st w t fl x).2.1)

/-- Does a filename match the glob `{experiment_name}_progress_*.pkl`
(experiment.py line 256)? -/
def matchesPattern : FileName → Bool
  | FileName.progress _ => true
  | _ => false

/-- `max(save_files, key=lambda x: x.stat().st_mtime)` (experiment.py line 263):
the first file attaining the maximal mtime. -/
def latestFile : List DiskFile → Option DiskFile
  | [] => none
  | f :: fs =>
    match latestFile fs with
    | none => some f
    | some g => if g.mtime > f.mtime then some g else some f

/-- `_load_progress` (experiment.py lines 248-279): glob for progress files; if none,
keep the fresh state; otherwise open the latest-mtime one; a deserialization
failure is caught and the fresh state kept; on success metadata, results and the
iteration counter are replaced wholesale from the file. -/
def load_progress (fresh : ExpState) (w : World) : ExpState :=
  match latestFile (w.files.filter (fun f => matchesPattern f.name)) with
  | none => fresh
  | some latest =>
    if latest.corrupt then fresh
    else
      { fresh with
          metadata := latest.data.metadata
          results := latest.data.results
          currentIteration := latest.data.currentIteration }

/-- The constructor (experiment.py lines 21-57): build the fresh state, then run
checkpoint discovery and resume. -/
def construct (expName : String) (saveInterval : Nat) (autoSave : Bool) (t : Nat)
    (w : World) : ExpState :=
  load_progress (initState expName saveInterval autoSave t) w

/-- The dictionary returned by `get_summary` (experiment.py lines 291-301). -/
structure Summary where
  experimentName : String
  currentIteration : Nat
  totalResults : Nat
  successfulResults : Nat
  errorResults : Nat
  successRate : ℚ
  startTime : Nat
  lastSave : Option Nat
  status : String
deriving DecidableEq

/-- `get_summary` (experiment.py lines 281-301): counts by status and
`len(successful) / len(results) if results else 0`. -/
def get_summary (st : ExpState) : Summary :=
  let succ := st.results.filter (fun r => decide (r.status = "success"))
  let errs := st.results.filter (fun r => decide (r.status = "error"))
  { experimentName := st.experimentName
    currentIteration := st.currentIteration
    totalResults := st.results.length
    successfulResults := succ.length
    errorResults := errs.length
    successRate := if st.results = [] then 0 else (succ.length : ℚ) / (st.results.length : ℚ)
    startTime := st.metadata.startTime
    lastSave := st.metadata.lastSave
    status := st.metadata.status }

/-- `reset` (experiment.py lines 303-313): in-memory only; it performs no
filesystem operation, so the world is returned unchanged. -/
def reset (st : ExpState) (w : World) (t : Nat) : ExpState × World :=
  ({ st with
      currentIteration := 0
      results := []
      metadata := { st.metadata with startTime := t, status := "reset" } }, w)

/-- `finish` (experiment.py lines 315-325): update metadata (end time, status
"finished", total iterations), then call `save` with the fixed filename
`{experiment_name}_final.pkl`. -/
def finish (st : ExpState) (w : World) (t : Nat) (writeFails : Bool) :
    ExpState × Except String (World × FileName) :=
  let st' : ExpState :=
    { st with
        metadata :=
          { st.metadata with
              endTime := some t
              status := "finished"
              totalIterations := some st.currentIteration } }
  save st' w t (some FileName.finalFile) writeFails

/-- Hooks whose every step succeeds. -/
def hooksOk : Hooks :=
  ⟨fun _ => Except.ok true, fun n => Except.ok (n + 1), fun n => Except.ok (n * 2),
    fun _ => Except.ok true⟩

/-- Hooks whose `process_input` raises. -/
def hooksBad : Hooks :=
  ⟨fun _ => Except.ok true, fun _ => Except.error "boom", fun n => Except.ok n,
    fun _ => Except.ok true⟩

/-- Empty output directory. -/
def w0 : World := ⟨[]⟩

/-- Fresh experiment with `save_interval = 1`, `auto_save = True`. -/
def demoSI1 : ExpState := initState "demo" 1 true 0

/-- Fresh experiment with `save_interval = 2`, `auto_save = True`. -/
def demoSI2 : ExpState := initState "demo" 2 true 0

/-- Sample metadata for checkpoint payloads used in concrete scenarios. -/
def mdRun : Metadata := { experimentName := "demo", startTime := 0, status := "running" }

/-- Payload of a decoy checkpoint. -/
def dataA : SaveData := ⟨mdRun, [], 100, "demo"⟩

/-- Payload of the checkpoint that resume should pick. -/
def dataB : SaveData := ⟨mdRun, [], 42, "demo"⟩

/-- Two checkpoints: `progress 5` has the lexicographically larger name but the
older mtime; `progress 2` is the most recently modified. -/
def wTwo : World :=
  ⟨[⟨FileName.progress 5, 1, dataA, false⟩, ⟨FileName.progress 2, 9, dataB, false⟩]⟩

/-- A one-success-record state used by witnesses. -/
def stOne : ExpState := appendResult demoSI1 (okRecord 0 5 6 10 0)

/-! Helper lemmas about the embedded operations. -/

@[simp] lemma appendResult_results (st : ExpState) (r : ResultRecord) :
    (appendResult st r).results = st.results ++ [r] := rfl

@[simp] lemma appendResult_currentIteration (st : ExpState) (r : ResultRecord) :
    (appendResult st r).currentIteration = st.currentIteration + 1 := rfl

@[simp] lemma appendResult_autoSave (st : ExpState) (r : ResultRecord) :
    (appendResult st r).autoSave = st.autoSave := rfl

@[simp] lemma appendResult_saveInterval (st : ExpState) (r : ResultRecord) :
    (appendResult st r).saveInterval = st.saveInterval := rfl

@[simp] lemma appendResult_experimentName (st : ExpState) (r : ResultRecord) :
    (appendResult st r).experimentName = st.experimentName := rfl

@[simp] lemma appendResult_metadata (st : ExpState) (r : ResultRecord) :
    (appendResult st r).metadata = st.metadata := rfl

lemma save_fst (st : ExpState) (w : World) (t : Nat) (fn : Option FileName) (fl : Bool) :
    (save st w t fn fl).1 = { st with metadata := saveMeta st t } := by
  cases fl <;> rfl

@[simp] lemma save_fst_results (st : ExpState) (w : World) (t : Nat) (fn : Option FileName)
    (fl : Bool) : (save st w t fn fl).1.results = st.results := by rw [save_fst]

@[simp] lemma save_fst_currentIteration (st : ExpState) (w : World) (t : Nat)
    (fn : Option FileName) (fl : Bool) :
    (save st w t fn fl).1.currentIteration = st.currentIteration := by rw [save_fst]

@[simp] lemma save_fst_experimentName (st : ExpState) (w : World) (t : Nat)
    (fn : Option FileName) (fl : Bool) :
    (save st w t fn fl).1.experimentName = st.experimentName := by rw [save_fst]

@[simp] lemma save_fst_metadata (st : ExpState) (w : World) (t : Nat) (fn : Option FileName)
    (fl : Bool) : (save st w t fn fl).1.metadata = saveMeta st t := by rw [save_fst]

lemma save_snd_false (st : ExpState) (w : World) (t : Nat) (fn : Option FileName) :
    (save st w t fn false).2 =
      Except.ok
        (writeFile w (fn.getD (FileName.progress t)) t
          ⟨saveMeta st t, st.results, st.currentIteration, st.experimentName⟩,
          fn.getD (FileName.progress t)) := rfl

lemma save_snd_true (st : ExpState) (w : World) (t : Nat) (fn : Option FileName) :
    (save st w t fn true).2 = Except.error persistMsg := rfl

/-- Each `run_single` call appends one or two records (two exactly when the
auto-save raises), increments the counter once per appended record, returns one
of the appended records, and gives every appended record status "success" or
"error". -/
lemma run_single_shape (h : Hooks) (st : ExpState) (w : World) (t : Nat) (fl : Bool)
    (x : Nat) :
    ∃ new : List ResultRecord,
      (run_single h st w t fl x).1.results = st.results ++ new ∧
      (run_single h st w t fl x).1.currentIteration = st.currentIteration + new.length ∧
      (new.length = 1 ∨ new.length = 2) ∧
      (run_single h st w t fl x).2.2 ∈ new ∧
      (∀ r ∈ new, r.status = "success" ∨ r.status = "error") ∧
      (run_single h st w t fl x).1.experimentName = st.experimentName := by
  unfold run_single
  cases hrs : runStep h x with
  | error e =>
      refine ⟨[errRecord st.currentIteration x e t], ?_, ?_, ?_, ?_, ?_, ?_⟩ <;>
        simp [appendResult, errRecord]
  | ok po =>
      obtain ⟨p, o⟩ := po
      by_cases hA : st.autoSave = true
      · by_cases hSI : st.saveInterval = 0
        · refine ⟨[okRecord st.currentIteration x p o t,
            errRecord (st.currentIteration + 1) x zeroDivMsg t], ?_, ?_, ?_, ?_, ?_, ?_⟩ <;>
            simp [appendResult, hA, hSI, okRecord, errRecord]
        · by_cases hMod : (st.currentIteration + 1) % st.saveInterval = 0
          · cases fl
            · refine ⟨[okRecord st.currentIteration x p o t], ?_, ?_, ?_, ?_, ?_, ?_⟩ <;>
                simp [appendResult, hA, hSI, hMod, okRecord, save, saveMeta]
            · refine ⟨[okRecord st.currentIteration x p o t,
                errRecord (st.currentIteration + 1) x persistMsg t], ?_, ?_, ?_, ?_, ?_, ?_⟩ <;>
                simp [appendResult, hA, hSI, hMod, okRecord, errRecord, save, saveMeta]
          · refine ⟨[okRecord st.currentIteration x p o t], ?_, ?_, ?_, ?_, ?_, ?_⟩ <;>
              simp [appendResult, hA, hSI, hMod, okRecord]
      · refine ⟨[okRecord st.currentIteration x p o t], ?_, ?_, ?_, ?_, ?_, ?_⟩ <;>
          simp [appendResult, hA, okRecord]

/-- With a positive save interval and a succeeding write, one call increments the
counter exactly once and appends exactly one record. -/
lemma run_single_once (h : Hooks) (st : ExpState) (w : World) (t x : Nat)
    (hSI : 0 < st.saveInterval) :
    (run_single h st w t false x).1.currentIteration = st.currentIteration + 1 ∧
    (run_single h st w t false x).1.results.length = st.results.length + 1 := by
  have hSI' : ¬ st.saveInterval = 0 := Nat.pos_iff_ne_zero.mp hSI
  unfold run_single
  cases hrs : runStep h x with
  | error e => simp [appendResult]
  | ok po =>
      obtain ⟨p, o⟩ := po
      by_cases hA : st.autoSave = true
      · by_cases hMod : (st.currentIteration + 1) % st.saveInterval = 0
        · simp [appendResult, hA, hSI', hMod, save, saveMeta]
        · simp [appendResult, hA, hSI', hMod]
      · simp [appendResult, hA]

/-- When the hooks succeed, the auto-save is due and its write fails, the
exception is caught inside `run_single`: the counter advances twice, a second
record with the persistence message is appended, the call returns that error
record, and the filesystem is unchanged. -/
lemma run_single_saveFail (h : Hooks) (st : ExpState) (w : World) (t x : Nat)
    (hok : ∃ po, runStep h x = Except.ok po) (hA : st.autoSave = true)
    (hSI : 0 < st.saveInterval)
    (hMod : (st.currentIteration + 1) % st.saveInterval = 0) :
    (run_single h st w t true x).1.currentIteration = st.currentIteration + 2 ∧
    (run_single h st w t true x).2.1 = w ∧
    (run_single h st w t true x).2.2.error = some persistMsg ∧
    (run_single h st w t true x).2.2.status = "error" := by
  obtain ⟨⟨p, o⟩, hrs⟩ := hok
  have hSI' : ¬ st.saveInterval = 0 := Nat.pos_iff_ne_zero.mp hSI
  unfold run_single
  rw [hrs]
  simp [appendResult, hA, hSI', hMod, save, saveMeta, errRecord]

/-- An error outcome of the hook pipeline never touches the filesystem
(the auto-save at lines 178-180 sits on the success path only). -/
lemma run_single_err_world (h : Hooks) (st : ExpState) (w : World) (t : Nat) (fl : Bool)
    (x : Nat) (e : String) (hrs : runStep h x = Except.error e) :
    (run_single h st w t fl x).2.1 = w := by
  unfold run_single
  rw [hrs]

/-- When the hooks succeed, the auto-save is due and the write succeeds, a
progress file timestamped with the current time is written and the state's
metadata status becomes "running". -/
lemma run_single_save_world (h : Hooks) (st : ExpState) (w : World) (t x : Nat)
    (hok : ∃ po, runStep h x = Except.ok po) (hA : st.autoSave = true)
    (hSI : 0 < st.saveInterval)
    (hMod : (st.currentIteration + 1) % st.saveInterval = 0) :
    (∃ d, (run_single h st w t false x).2.1 = writeFile w (FileName.progress t) t d) ∧
    (run_single h st w t false x).1.metadata.status = "running" := by
  obtain ⟨⟨p, o⟩, hrs⟩ := hok
  have hSI' : ¬ st.saveInterval = 0 := Nat.pos_iff_ne_zero.mp hSI
  unfold run_single
  rw [hrs]
  refine ⟨⟨⟨saveMeta (appendResult st (okRecord st.currentIteration x p o t)) t,
    (appendResult st (okRecord st.currentIteration x p o t)).results,
    st.currentIteration + 1,
    st.experimentName⟩, ?_⟩, ?_⟩ <;>
    simp [appendResult, hA, hSI', hMod, save, saveMeta]

/-- `latestFile` returns `none` only on the empty list. -/
lemma latestFile_eq_none {l : List DiskFile} (h : latestFile l = none) : l = [] := by
  cases l with
  | nil => rfl
  | cons f fs =>
      exfalso
      cases hfs : latestFile fs <;> simp only [latestFile, hfs] at h
      · exact Option.noConfusion h
      · split at h <;> exact Option.noConfusion h

/-- The file chosen by `latestFile` belongs to the list and has maximal mtime
(Python `max` with `key=st_mtime`). -/
lemma latestFile_spec {l : List DiskFile} {f : DiskFile} (h : latestFile l = some f) :
    f ∈ l ∧ ∀ g ∈ l, g.mtime ≤ f.mtime := by
  induction l generalizing f with
  | nil => exact Option.noConfusion h
  | cons a fs ih =>
      cases hfs : latestFile fs with
      | none =>
          have hnil : fs = [] := latestFile_eq_none hfs
          subst hnil
          simp only [latestFile] at h
          obtain rfl : a = f := by
            have := h
            simp at this
            exact this
          exact ⟨List.mem_cons_self a [], by
            intro g hg
            rcases List.mem_singleton.mp hg with rfl
            exact Nat.le_refl _⟩
      | some b =>
          obtain ⟨hbmem, hbmax⟩ := ih hfs
          simp only [latestFile, hfs] at h
          by_cases hlt : a.mtime < b.mtime
          · rw [if_pos hlt] at h
            obtain rfl : b = f := Option.some_injective _ h
            refine ⟨List.mem_cons_of_mem _ hbmem, ?_⟩
            intro g hg
            rcases List.mem_cons.mp hg with rfl | hg'
            · exact Nat.le_of_lt hlt
            · exact hbmax g hg'
          · rw [if_neg hlt] at h
            obtain rfl : a = f := Option.some_injective _ h
            refine ⟨List.mem_cons_self a fs, ?_⟩
            intro g hg
            rcases List.mem_cons.mp hg with rfl | hg'
            · exact Nat.le_refl _
            · exact Nat.le_trans (hbmax g hg') (Nat.le_of_not_lt hlt)

/-- When the head of the list has mtime at least as large as every later file,
`latestFile` picks the head (Python `max` keeps the first maximal element). -/
lemma latestFile_head {f : DiskFile} {fs : List DiskFile}
    (h : ∀ g ∈ fs, g.mtime ≤ f.mtime) : latestFile (f :: fs) = some f := by
  cases hfs : latestFile fs with
  | none => simp [latestFile, hfs]
  | some b =>
      have hb : b ∈ fs := (latestFile_spec hfs).1
      have hle : b.mtime ≤ f.mtime := h b hb
      simp [latestFile, hfs, Nat.not_lt.mpr hle]

/-- One `run_single` call preserves the invariant
`len(results) == current_iteration`. -/
lemma run_single_invariant (h : Hooks) (st : ExpState) (w : World) (t : Nat) (fl : Bool)
    (x : Nat) (hinv : st.results.length = st.currentIteration) :
    (run_single h st w t fl x).1.results.length =
      (run_single h st w t fl x).1.currentIteration := by
  obtain ⟨new, hres, hiter, _, _, _, _⟩ := run_single_shape h st w t fl x
  rw [hres, hiter, List.length_append, hinv]

/-- Any sequence of `run_single` calls preserves the invariant
`len(results) == current_iteration`. -/
lemma runMany_invariant (h : Hooks) (inputs : List (Nat × Nat × Bool)) (st : ExpState)
    (w : World) (hinv : st.results.length = st.currentIteration) :
    (runMany h inputs (st, w)).1.results.length =
      (runMany h inputs (st, w)).1.currentIteration := by
  induction inputs generalizing st w with
  | nil => exact hinv
  | cons i rest ih =>
      obtain ⟨x, t, fl⟩ := i
      exact ih _ _ (run_single_invariant h st w t fl x hinv)

/-- A corrupt latest checkpoint is caught and the fresh constructor state kept. -/
lemma construct_corrupt (expName : String) (si : Nat) (b : Bool) (t : Nat) (w : World)
    (f : DiskFile)
    (hlf : latestFile (w.files.filter (fun g => matchesPattern g.name)) = some f)
    (hc : f.corrupt = true) :
    construct expName si b t w = initState expName si b t := by
  simp [construct, load_progress, hlf, hc]

/-- Without a matching checkpoint file the constructor keeps the fresh state. -/
lemma construct_fresh (expName : String) (si : Nat) (b : Bool) (t : Nat) (w : World)
    (hnone : w.files.filter (fun f => matchesPattern f.name) = []) :
    construct expName si b t w = initState expName si b t := by
  simp [construct, load_progress, hnone, latestFile]

/-- With a readable latest checkpoint the constructor replaces metadata, results
and the iteration counter wholesale from the file. -/
lemma construct_loaded (expName : String) (si : Nat) (b : Bool) (t : Nat) (w : World)
    (f : DiskFile)
    (hlf : latestFile (w.files.filter (fun g => matchesPattern g.name)) = some f)
    (hc : f.corrupt = false) :
    (construct expName si b t w).metadata = f.data.metadata ∧
    (construct expName si b t w).results = f.data.results ∧
    (construct expName si b t w).currentIteration = f.data.currentIteration := by
  simp [construct, load_progress, hlf, hc]

/-! Claim theorems. -/

/-- C1, counterexample: on a fresh experiment with `auto_save=True` and
`save_interval=1`, one `run_single` call with succeeding hooks whose auto-save
write fails increments the iteration counter by 2, not by 1: the save exception
is caught by `run_single`'s own handler, which appends a second record and
increments again.  So "each run_single call increments the iteration counter
exactly once regardless of ... outcome" is false as stated. -/
theorem c1_counterexample :
    ¬ ((run_single hooksOk demoSI1 w0 0 true 5).1.currentIteration =
        demoSI1.currentIteration + 1) ∧
    (run_single hooksOk demoSI1 w0 0 true 5).1.currentIteration = 2 ∧
    (run_single hooksOk demoSI1 w0 0 true 5).1.results.length = 2 := by
  refine ⟨?_, ?_, ?_⟩ <;> decide

/-- C1 (amended): after any sequence of `run_single` calls from a state
satisfying it, `len(results) == current_iteration` holds (append and increment
are paired on every path); each call increments the counter exactly once
provided the save interval is positive and the auto-save write does not fail;
a call whose auto-save write fails increments twice, once for the success
record and once for the recorded save error. -/
theorem c1_amended :
    (∀ (h : Hooks) (inputs : List (Nat × Nat × Bool)) (st : ExpState) (w : World),
        st.results.length = st.currentIteration →
        (runMany h inputs (st, w)).1.results.length =
          (runMany h inputs (st, w)).1.currentIteration) ∧
    (∀ (h : Hooks) (st : ExpState) (w : World) (t x : Nat),
        0 < st.saveInterval →
        (run_single h st w t false x).1.currentIteration = st.currentIteration + 1) ∧
    (∀ (h : Hooks) (st : ExpState) (w : World) (t x : Nat),
        (∃ po, runStep h x = Except.ok po) → st.autoSave = true →
        0 < st.saveInterval → (st.currentIteration + 1) % st.saveInterval = 0 →
        (run_single h st w t true x).1.currentIteration = st.currentIteration + 2) := by
  refine ⟨?_, ?_, ?_⟩
  · intro h inputs st w hinv
    exact runMany_invariant h inputs st w hinv
  · intro h st w t x hSI
    exact (run_single_once h st w t x hSI).1
  · intro h st w t x hok hA hSI hMod
    exact (run_single_saveFail h st w t x hok hA hSI hMod).1

/-- C1 witness: the amended statement applied at concrete inputs. -/
theorem c1_amended_witness :
    (runMany hooksOk [(5, 1, false), (6, 2, false)] (demoSI1, w0)).1.results.length =
      (runMany hooksOk [(5, 1, false), (6, 2, false)] (demoSI1, w0)).1.currentIteration ∧
    (run_single hooksOk demoSI1 w0 0 false 5).1.currentIteration =
      demoSI1.currentIteration + 1 ∧
    (run_single hooksOk demoSI1 w0 0 true 5).1.currentIteration =
      demoSI1.currentIteration + 2 :=
  ⟨c1_amended.1 hooksOk [(5, 1, false), (6, 2, false)] demoSI1 w0 (by decide),
    c1_amended.2.1 hooksOk demoSI1 w0 0 5 (by decide),
    c1_amended.2.2 hooksOk demoSI1 w0 0 5 ⟨(6, 12), rfl⟩ (by decide) (by decide)
      (by decide)⟩

/-- C2, counterexample: `finish()` on a fresh experiment ends with metadata
status "running", not "finished" - the `save` it performs overwrites the status
it has just written (experiment.py lines 319-324 then 213-219). -/
theorem c2_counterexample :
    ¬ ((finish demoSI1 w0 5 false).1.metadata.status = "finished") ∧
    (finish demoSI1 w0 5 false).1.metadata.status = "running" := by
  refine ⟨?_, ?_⟩ <;> decide

/-- C2 (amended): `finish()` stamps the end time and the total-iterations count,
momentarily sets status "finished", and forces a save under the fixed filename
`{experiment_name}_final.pkl` independent of the save interval (also with zero
iterations run); that save then overwrites the metadata status with "running",
both in memory and in the written file. -/
theorem c2_amended (st : ExpState) (w : World) (t : Nat) :
    (finish st w t false).1.metadata.endTime = some t ∧
    (finish st w t false).1.metadata.totalIterations = some st.currentIteration ∧
    (finish st w t false).1.metadata.status = "running" ∧
    ∃ w' : World, (finish st w t false).2 = Except.ok (w', FileName.finalFile) ∧
      ∃ f : DiskFile, f ∈ w'.files ∧ f.name = FileName.finalFile ∧
        f.data.metadata.endTime = some t ∧ f.data.metadata.status = "running" ∧
        f.data.currentIteration = st.currentIteration ∧ f.data.results = st.results := by
  refine ⟨rfl, rfl, rfl, ?_⟩
  unfold finish
  rw [save_snd_false]
  exact ⟨_, rfl, _, List.mem_cons_self _ _, rfl, rfl, rfl, rfl, rfl⟩

/-- C3, counterexample: a `run_single` call whose hook pipeline raises satisfies
the stated condition (auto-save enabled, incremented counter divisible by the
save interval) yet performs no save: the filesystem is unchanged, refuting
"for every outcome, success or error". -/
theorem c3_counterexample :
    (run_single hooksBad demoSI1 w0 1 false 7).1.autoSave = true ∧
    (run_single hooksBad demoSI1 w0 1 false 7).1.saveInterval = 1 ∧
    (run_single hooksBad demoSI1 w0 1 false 7).1.currentIteration %
      (run_single hooksBad demoSI1 w0 1 false 7).1.saveInterval = 0 ∧
    (run_single hooksBad demoSI1 w0 1 false 7).2.2.status = "error" ∧
    (run_single hooksBad demoSI1 w0 1 false 7).2.1 = w0 := by
  refine ⟨?_, ?_, ?_, ?_, ?_⟩ <;> decide

/-- C3 (amended): the auto-save in `run_single` runs only on the success path:
an error outcome never writes a checkpoint; on a success outcome with auto-save
enabled and `iteration mod save_interval == 0` a progress checkpoint is written;
in particular three successful calls with `save_interval=2` and `auto_save=True`
cause exactly one automatic save, after the second call. -/
theorem c3_amended :
    (∀ (h : Hooks) (st : ExpState) (w : World) (t : Nat) (fl : Bool) (x : Nat) (e : String),
        runStep h x = Except.error e → (run_single h st w t fl x).2.1 = w) ∧
    (∀ (h : Hooks) (st : ExpState) (w : World) (t x : Nat),
        (∃ po, runStep h x = Except.ok po) → st.autoSave = true →
        0 < st.saveInterval → (st.currentIteration + 1) % st.saveInterval = 0 →
        ∃ d, (run_single h st w t false x).2.1 = writeFile w (FileName.progress t) t d) ∧
    (runMany hooksOk [(5, 1, false), (6, 2, false), (7, 3, false)] (demoSI2, w0)).2.files.map
      DiskFile.name = [FileName.progress 2] := by
  refine ⟨?_, ?_, ?_⟩
  · intro h st w t fl x e hrs
    exact run_single_err_world h st w t fl x e hrs
  · intro h st w t x hok hA hSI hMod
    exact (run_single_save_world h st w t x hok hA hSI hMod).1
  · decide

/-- C3 witness: the amended statement applied at concrete inputs. -/
theorem c3_amended_witness :
    (run_single hooksBad demoSI1 w0 1 false 7).2.1 = w0 ∧
    ∃ d, (run_single hooksOk demoSI1 w0 4 false 5).2.1 =
      writeFile w0 (FileName.progress 4) 4 d :=
  ⟨c3_amended.1 hooksBad demoSI1 w0 1 false 7 "boom" rfl,
    c3_amended.2.1 hooksOk demoSI1 w0 4 5 ⟨(6, 12), rfl⟩ (by decide) (by decide) (by decide)⟩

/-- C4: `run_single` is a total function (the embedding of "never raises": every
exception of the hook pipeline, and even a failing auto-save write, is caught by
its handler).  Every call extends the result list append-only by one or two
records, each appended record has status "success" or "error", the returned
record is one of them, and the counter advances once per appended record. -/
theorem c4_run_single_total (h : Hooks) (st : ExpState) (w : World) (t : Nat) (fl : Bool)
    (x : Nat) :
    ∃ new : List ResultRecord,
      (run_single h st w t fl x).1.results = st.results ++ new ∧
      (run_single h st w t fl x).1.currentIteration = st.currentIteration + new.length ∧
      (new.length = 1 ∨ new.length = 2) ∧
      (run_single h st w t fl x).2.2 ∈ new ∧
      (∀ r ∈ new, r.status = "success" ∨ r.status = "error") :=
  (run_single_shape h st w t fl x).imp fun _ hp =>
    ⟨hp.1, hp.2.1, hp.2.2.1, hp.2.2.2.1, hp.2.2.2.2.1⟩

/-- C4 witness: the totality statement applied at a concrete hook set and input,
one whose `process_input` raises. -/
theorem c4_run_single_total_witness :
    ∃ new : List ResultRecord,
      (run_single hooksBad demoSI1 w0 3 false 7).1.results = demoSI1.results ++ new ∧
      (run_single hooksBad demoSI1 w0 3 false 7).1.currentIteration =
        demoSI1.currentIteration + new.length ∧
      (new.length = 1 ∨ new.length = 2) ∧
      (run_single hooksBad demoSI1 w0 3 false 7).2.2 ∈ new ∧
      (∀ r ∈ new, r.status = "success" ∨ r.status = "error") :=
  c4_run_single_total hooksBad demoSI1 w0 3 false 7

/-- C5, counterexample: a persistence error raised by the auto-save inside
`run_single` does NOT propagate: the call completes normally, returning an error
record carrying the persistence message, with the filesystem unchanged - the
exception was caught by `run_single`'s own handler (experiment.py line 184). -/
theorem c5_counterexample :
    (run_single hooksOk demoSI1 w0 0 true 5).2.2.status = "error" ∧
    (run_single hooksOk demoSI1 w0 0 true 5).2.2.error = some persistMsg ∧
    (run_single hooksOk demoSI1 w0 0 true 5).2.1 = w0 ∧
    (run_single hooksOk demoSI1 w0 0 true 5).1.results.length = 2 := by
  refine ⟨?_, ?_, ?_, ?_⟩ <;> decide

/-- C5 (amended): a write failure propagates out of `save` and out of `finish`
(after the metadata mutation), but a write failure during the auto-save inside
`run_single` is caught by `run_single`'s handler and recorded as an additional
error record; a deserialization failure during load is caught and the
constructor continues with the fresh empty state. -/
theorem c5_amended :
    (∀ (st : ExpState) (w : World) (t : Nat) (fn : Option FileName),
        (save st w t fn true).2 = Except.error persistMsg) ∧
    (∀ (st : ExpState) (w : World) (t : Nat),
        (finish st w t true).2 = Except.error persistMsg) ∧
    (∀ (h : Hooks) (st : ExpState) (w : World) (t x : Nat),
        (∃ po, runStep h x = Except.ok po) → st.autoSave = true →
        0 < st.saveInterval → (st.currentIteration + 1) % st.saveInterval = 0 →
        (run_single h st w t true x).2.1 = w ∧
        (run_single h st w t true x).2.2.error = some persistMsg ∧
        (run_single h st w t true x).2.2.status = "error") ∧
    (∀ (expName : String) (si : Nat) (b : Bool) (t : Nat) (w : World) (f : DiskFile),
        latestFile (w.files.filter (fun g => matchesPattern g.name)) = some f →
        f.corrupt = true →
        construct expName si b t w = initState expName si b t) := by
  refine ⟨?_, ?_, ?_, ?_⟩
  · intro st w t fn
    exact save_snd_true st w t fn
  · intro st w t
    rfl
  · intro h st w t x hok hA hSI hMod
    obtain ⟨_, h2, h3, h4⟩ := run_single_saveFail h st w t x hok hA hSI hMod
    exact ⟨h2, h3, h4⟩
  · intro expName si b t w f hlf hc
    exact construct_corrupt expName si b t w f hlf hc

/-- C5 witness: the amended statement applied at concrete inputs, with a corrupt
one-checkpoint world for the load conjunct. -/
theorem c5_amended_witness :
    (save demoSI1 w0 3 none true).2 = Except.error persistMsg ∧
    (finish demoSI1 w0 3 true).2 = Except.error persistMsg ∧
    (run_single hooksOk demoSI1 w0 0 true 5).2.1 = w0 ∧
    construct "demo" 1 true 0 ⟨[⟨FileName.progress 7, 4, dataA, true⟩]⟩ =
      initState "demo" 1 true 0 :=
  ⟨c5_amended.1 demoSI1 w0 3 none,
    c5_amended.2.1 demoSI1 w0 3,
    (c5_amended.2.2.1 hooksOk demoSI1 w0 0 5 ⟨(6, 12), rfl⟩ (by decide) (by decide)
      (by decide)).1,
    c5_amended.2.2.2 "demo" 1 true 0 ⟨[⟨FileName.progress 7, 4, dataA, true⟩]⟩
      ⟨FileName.progress 7, 4, dataA, true⟩ (by decide) rfl⟩

/-- C6: checkpoint discovery at construction.  A fresh construction (no matching
`_progress_` file) yields iteration 0, empty results, status "initialized";
among matching files the one with maximal filesystem mtime is chosen (Python
`max` by `st_mtime`); a readable choice replaces metadata, results and the
counter wholesale; a corrupt choice leaves the fresh state; and in a concrete
two-checkpoint world the file with the lexicographically larger name
(`progress 5`) but older mtime loses to the most recently modified one
(`progress 2`, payload iteration 42). -/
theorem c6_resume :
    ((initState "demo" 1 true 0).currentIteration = 0 ∧
      (initState "demo" 1 true 0).results = [] ∧
      (initState "demo" 1 true 0).metadata.status = "initialized") ∧
    (∀ (expName : String) (si : Nat) (b : Bool) (t : Nat) (w : World),
        w.files.filter (fun f => matchesPattern f.name) = [] →
        construct expName si b t w = initState expName si b t) ∧
    (∀ (l : List DiskFile) (f : DiskFile),
        latestFile l = some f → f ∈ l ∧ ∀ g ∈ l, g.mtime ≤ f.mtime) ∧
    (∀ (expName : String) (si : Nat) (b : Bool) (t : Nat) (w : World) (f : DiskFile),
        latestFile (w.files.filter (fun g => matchesPattern g.name)) = some f →
        f.corrupt = false →
        (construct expName si b t w).metadata = f.data.metadata ∧
        (construct expName si b t w).results = f.data.results ∧
        (construct expName si b t w).currentIteration = f.data.currentIteration) ∧
    (∀ (expName : String) (si : Nat) (b : Bool) (t : Nat) (w : World) (f : DiskFile),
        latestFile (w.files.filter (fun g => matchesPattern g.name)) = some f →
        f.corrupt = true →
        construct expName si b t w = initState expName si b t) ∧
    (construct "demo" 1 true 0 wTwo).currentIteration = 42 := by
  refine ⟨⟨rfl, rfl, rfl⟩, ?_, ?_, ?_, ?_, ?_⟩
  · intro expName si b t w hnone
    exact construct_fresh expName si b t w hnone
  · intro l f hlf
    exact latestFile_spec hlf
  · intro expName si b t w f hlf hc
    exact construct_loaded expName si b t w f hlf hc
  · intro expName si b t w f hlf hc
    exact construct_corrupt expName si b t w f hlf hc
  · decide

/-- C6 witness: the resume statement applied at concrete worlds. -/
theorem c6_resume_witness :
    construct "demo" 1 true 0 w0 = initState "demo" 1 true 0 ∧
    (⟨FileName.progress 2, 9, dataB, false⟩ : DiskFile) ∈ wTwo.files ∧
    (construct "demo" 1 true 0 wTwo).results = dataB.results ∧
    construct "demo" 1 true 0 ⟨[⟨FileName.progress 3, 6, dataA, true⟩]⟩ =
      initState "demo" 1 true 0 :=
  ⟨c6_resume.2.1 "demo" 1 true 0 w0 rfl,
    (c6_resume.2.2.1 (wTwo.files.filter (fun g => matchesPattern g.name))
      ⟨FileName.progress 2, 9, dataB, false⟩ (by decide)).1,
    (c6_resume.2.2.2.1 "demo" 1 true 0 wTwo ⟨FileName.progress 2, 9, dataB, false⟩
      (by decide) rfl).2.1,
    c6_resume.2.2.2.2.1 "demo" 1 true 0 ⟨[⟨FileName.progress 3, 6, dataA, true⟩]⟩
      ⟨FileName.progress 3, 6, dataA, true⟩ (by decide) rfl⟩

/-- C7: round trip.  If no other checkpoint is newer than the save time, `save()`
followed by constructing a new instance over the resulting directory reproduces
the iteration counter and result sequence exactly. -/
theorem c7_round_trip (st : ExpState) (w : World) (t si t2 : Nat) (b : Bool)
    (hmt : ∀ f ∈ w.files, f.mtime ≤ t) :
    ∃ w' : World, (save st w t none false).2 = Except.ok (w', FileName.progress t) ∧
      (construct st.experimentName si b t2 w').currentIteration = st.currentIteration ∧
      (construct st.experimentName si b t2 w').results = st.results := by
  refine ⟨_, save_snd_false st w t none, ?_, ?_⟩ <;>
  · have hhead :
        latestFile ((writeFile w (FileName.progress t) t
            ⟨saveMeta st t, st.results, st.currentIteration, st.experimentName⟩).files.filter
          (fun g => matchesPattern g.name)) =
        some ⟨FileName.progress t, t,
          ⟨saveMeta st t, st.results, st.currentIteration, st.experimentName⟩, false⟩ := by
      exact latestFile_head (by
        intro g hg
        exact hmt g (List.mem_of_mem_filter (List.mem_of_mem_filter hg)))
    have hload := construct_loaded st.experimentName si b t2 _ _ hhead rfl
    first
    | exact hload.2.2
    | exact hload.2.1

/-- C7 witness: the round trip applied to a concrete one-result state over an
empty directory. -/
theorem c7_round_trip_witness :
    ∃ w' : World, (save stOne w0 1 none false).2 = Except.ok (w', FileName.progress 1) ∧
      (construct stOne.experimentName 1 true 9 w').currentIteration =
        stOne.currentIteration ∧
      (construct stOne.experimentName 1 true 9 w').results = stOne.results :=
  c7_round_trip stOne w0 1 1 9 true (by intro f hf; exact (List.not_mem_nil f hf).elim)

/-- C8: `reset()` zeroes the iteration counter, empties the result sequence,
stamps a new start time and sets status "reset", while preserving the experiment
name (and the configuration) and leaving every on-disk checkpoint file
untouched. -/
theorem c8_reset (st : ExpState) (w : World) (t : Nat) :
    (reset st w t).1.currentIteration = 0 ∧
    (reset st w t).1.results = [] ∧
    (reset st w t).1.metadata.startTime = t ∧
    (reset st w t).1.metadata.status = "reset" ∧
    (reset st w t).1.experimentName = st.experimentName ∧
    (reset st w t).1.saveInterval = st.saveInterval ∧
    (reset st w t).1.autoSave = st.autoSave ∧
    (reset st w t).2 = w :=
  ⟨rfl, rfl, rfl, rfl, rfl, rfl, rfl, rfl⟩

/-- C9: the summary's success rate is the number of "success" records divided by
the total number of records, lies in [0,1] in every state, and is 0 on an empty
result list (no division by zero). -/
theorem c9_success_rate (st : ExpState) :
    0 ≤ (get_summary st).successRate ∧
    (get_summary st).successRate ≤ 1 ∧
    (st.results = [] → (get_summary st).successRate = 0) ∧
    (st.results ≠ [] →
      (get_summary st).successRate =
        ((st.results.filter (fun r => decide (r.status = "success"))).length : ℚ) /
          (st.results.length : ℚ)) := by
  by_cases hE : st.results = []
  · refine ⟨?_, ?_, fun _ => ?_, fun hne => absurd hE hne⟩ <;>
      simp [get_summary, hE]
  · have hpos : (0 : ℚ) < (st.results.length : ℚ) := by
      have hp : 0 < st.results.length := List.length_pos.mpr hE
      exact_mod_cast hp
    have hle :
        ((st.results.filter (fun r => decide (r.status = "success"))).length : ℚ) ≤
          (st.results.length : ℚ) := by
      exact_mod_cast List.length_filter_le _ st.results
    refine ⟨?_, ?_, fun h => absurd h hE, fun _ => ?_⟩
    · simp only [get_summary, if_neg hE]
      exact div_nonneg (Nat.cast_nonneg _) (Nat.cast_nonneg _)
    · simp only [get_summary, if_neg hE]
      exact (div_le_one hpos).mpr hle
    · simp only [get_summary, if_neg hE]

/-- C9 witness: the success-rate statement applied at an empty and at a
one-success-record state. -/
theorem c9_success_rate_witness :
    0 ≤ (get_summary stOne).successRate ∧
    (get_summary demoSI1).successRate = 0 ∧
    (get_summary stOne).successRate =
      ((stOne.results.filter (fun r => decide (r.status = "success"))).length : ℚ) /
        (stOne.results.length : ℚ) :=
  ⟨(c9_success_rate stOne).1, (c9_success_rate demoSI1).2.2.1 rfl,
    (c9_success_rate stOne).2.2.2 (by decide)⟩

/-- C10: every `save` - including the one inside `finish` and the auto-save
inside `run_single` - unconditionally overwrites the metadata status with
"running" and stamps a fresh last-save time, whatever the status was
beforehand. -/
theorem c10_save_sets_running :
    (∀ (st : ExpState) (w : World) (t : Nat) (fn : Option FileName) (fl : Bool),
        (save st w t fn fl).1.metadata.status = "running" ∧
        (save st w t fn fl).1.metadata.lastSave = some t) ∧
    (∀ (st : ExpState) (w : World) (t : Nat) (fl : Bool),
        (finish st w t fl).1.metadata.status = "running" ∧
        (finish st w t fl).1.metadata.lastSave = some t) ∧
    (∀ (h : Hooks) (st : ExpState) (w : World) (t x : Nat),
        (∃ po, runStep h x = Except.ok po) → st.autoSave = true →
        0 < st.saveInterval → (st.currentIteration + 1) % st.saveInterval = 0 →
        (run_single h st w t false x).1.metadata.status = "running") := by
  refine ⟨?_, ?_, ?_⟩
  · intro st w t fn fl
    rw [save_fst_metadata]
    exact ⟨rfl, rfl⟩
  · intro st w t fl
    unfold finish
    rw [save_fst_metadata]
    exact ⟨rfl, rfl⟩
  · intro h st w t x hok hA hSI hMod
    exact (run_single_save_world h st w t x hok hA hSI hMod).2

/-- C10 witness: saving from status "finished" and finishing from status "reset"
both end with status "running", as does a successful auto-saving call. -/
theorem c10_save_sets_running_witness :
    (save { demoSI1 with
        metadata := { demoSI1.metadata with status := "finished" } } w0 4 none
        false).1.metadata.status = "running" ∧
    (finish { demoSI1 with
        metadata := { demoSI1.metadata with status := "reset" } } w0 4
        true).1.metadata.status = "running" ∧
    (run_single hooksOk demoSI1 w0 0 false 5).1.metadata.status = "running" :=
  ⟨(c10_save_sets_running.1 _ w0 4 none false).1,
    (c10_save_sets_running.2.1 _ w0 4 true).1,
    c10_save_sets_running.2.2 hooksOk demoSI1 w0 0 5 ⟨(6, 12), rfl⟩ rfl (by decide)
      (by decide)⟩
